import Mathlib

/-!
Verification of the multi-locale tutorial test orchestrator implemented in
`Scripts/run_tutorial_tests_ci.py`.

The script drives an external executable twice per requested locale: a short
"configure" run (`_configure_language`) that persists a locale preference, and
a long "execute" run (`_run_tutorial_test`) that runs the tutorial and is
expected to leave a JSON result artifact.  `run_test_for_language` sequences
the two phases, `run_all_tests` loops over the requested locales collecting
verdicts in a dict, `generate_report` aggregates them, and `main` maps the
aggregate success rate to a process exit code.

The embedding below follows the Python source.  Effects of the host system
(the subprocess's exit code, captured stdout lines, wall-clock measurements,
whether the process outlived its timeout, the contents of the result-artifact
file) are inputs of the model, gathered in environment records; the
filesystem is a list of paths, threaded through each phase so the transient
script files' lifetime is visible.  Time quantities use `ℚ`.
-/

namespace TutorialCI

/-- Boolean substring test on character lists: Python's `pat in s`. -/
def subAux : List Char → List Char → Bool
  | _, [] => true
  | [], _ :: _ => false
  | c :: rest, p :: ps => List.isPrefixOf (p :: ps) (c :: rest) || subAux rest (p :: ps)

/-- Python's `pat in s` substring containment on strings. -/
def hasSubstr (s pat : String) : Bool :=
  subAux s.data pat.data

/-- Filesystem model: the list of paths currently present. -/
abbrev FS := List String

/-- Creating a file (the `tempfile.NamedTemporaryFile(..., delete=False)` write). -/
def fsCreate (fs : FS) (f : String) : FS := f :: fs

/-- Deleting a file (`os.unlink`); removes every entry carrying the path. -/
def fsUnlink (fs : FS) (f : String) : FS :=
  fs.filter (fun g => decide (g ≠ f))

/-- Parsed content of a per-locale result artifact, as the generated tutorial
script writes it (`language`, `tutorial`, `status`, optional `error`). -/
structure ResultData where
  language : String := ""
  tutorial : String := ""
  status : String := ""
  error : Option String := none
deriving DecidableEq

/-- One locale's outcome dict, as built by `run_test_for_language` /
`_run_tutorial_test`.  Optional fields mirror keys that only some of the
return paths set. -/
structure Verdict where
  language : String := ""
  tutorial : String := ""
  status : String := ""
  error : Option String := none
  execution_time : ℚ := 0
  return_code : Option Int := none
  slicer_output : Option (List String) := none
deriving DecidableEq

/-- Host-side behaviour of the configure subprocess run: whether the body of
the `try` raised, whether the wall-clock budget was exceeded while the process
was alive, the final exit code, and the captured stdout lines. -/
structure ConfigEnv where
  bodyRaises : Option String := none
  timedOut : Bool := false
  returncode : Int := 0
  outputLines : List String := []

/-- First session (`_configure_language`): spawns the configure run, supervises
it under the 30-second budget, and judges success from the exit code, with the
benign-non-zero override that scans the captured output.  Returns the success
flag together with the filesystem after the `finally: os.unlink` cleanup. -/
def _configure_language (fs : FS) (config_script : String) (env : ConfigEnv) :
    Bool × FS :=
  let fs1 := fsCreate fs config_script
  match env.bodyRaises with
  | some _ => (false, fsUnlink fs1 config_script)
  | none =>
    if env.timedOut then
      (false, fsUnlink fs1 config_script)
    else if env.returncode = 0 then
      (true, fsUnlink fs1 config_script)
    else
      let config_found := env.outputLines.any
        (fun line => hasSubstr line "pt-BR" && hasSubstr line "i18n habilitado: True")
      let success_msg_found := env.outputLines.any
        (fun line => hasSubstr line "✅" && hasSubstr line "Configuração")
      (config_found || success_msg_found, fsUnlink fs1 config_script)

/-- Signals the supervisor sends to the child process. -/
inductive ProcAction
  | terminate
  | kill
deriving DecidableEq

/-- Host-side behaviour of the execute subprocess run.  `resultFile` is the
state of the expected result artifact after the process ends: `none` when the
file is absent, `some (Except.error msg)` when opening or JSON-parsing it
raises `msg`, and `some (Except.ok d)` when it parses to `d`.  `elapsed` is
the wall-clock time measured after the supervision loop. -/
structure ExecEnv where
  bodyRaises : Option String := none
  timedOut : Bool := false
  aliveAfterGrace : Bool := false
  returncode : Int := 0
  outputLines : List String := []
  elapsed : ℚ := 0
  resultFile : Option (Except String ResultData) := none

/-- Result of one `_run_tutorial_test` call: the verdict dict, the signals
sent to the child, and the filesystem after cleanup. -/
structure ExecOutcome where
  verdict : Verdict
  actions : List ProcAction
  fs : FS

/-- Default execute-phase timeout (`SLICER_TIMEOUT = 300`). -/
def SLICER_TIMEOUT : ℚ := 300

/-- Second session (`_run_tutorial_test`): supervises the tutorial run (on
timeout: `terminate`, grace wait, `kill` when still alive), then derives the
verdict from the result artifact — merged artifact data when it parses, an
`error` verdict carrying the exception text and `execution_time` 0 when
reading/parsing raises (the outer `except` of the function), and a synthetic
`No result file found` error verdict when it is absent.  The transient test
script is unlinked in the `finally` on every path. -/
def _run_tutorial_test (fs : FS) (test_script : String) (env : ExecEnv)
    (language_code tutorial_name : String) : ExecOutcome :=
  let fs1 := fsCreate fs test_script
  match env.bodyRaises with
  | some e =>
    { verdict := { language := language_code, tutorial := tutorial_name,
                   status := "error", error := some e, execution_time := 0 },
      actions := [], fs := fsUnlink fs1 test_script }
  | none =>
    let actions :=
      if env.timedOut then
        if env.aliveAfterGrace then [ProcAction.terminate, ProcAction.kill]
        else [ProcAction.terminate]
      else []
    match env.resultFile with
    | some (Except.ok d) =>
      { verdict := { language := d.language, tutorial := d.tutorial,
                     status := d.status, error := d.error,
                     execution_time := env.elapsed,
                     return_code := some env.returncode,
                     slicer_output := some env.outputLines },
        actions := actions, fs := fsUnlink fs1 test_script }
    | some (Except.error msg) =>
      { verdict := { language := language_code, tutorial := tutorial_name,
                     status := "error", error := some msg, execution_time := 0 },
        actions := actions, fs := fsUnlink fs1 test_script }
    | none =>
      { verdict := { language := language_code, tutorial := tutorial_name,
                     status := "error",
                     error := some ("No result file found. Return code: "
                       ++ toString env.returncode),
                     execution_time := env.elapsed,
                     return_code := some env.returncode,
                     slicer_output := some env.outputLines },
        actions := actions, fs := fsUnlink fs1 test_script }

/-- Environment of one whole `run_test_for_language` call.  The two
`...Raises` fields model the script-generation helpers raising before the
phase's own `try` begins (those exceptions escape to the outer handler). -/
structure JobEnv where
  configScript : String := "config_script.py"
  testScript : String := "test_script.py"
  configScriptRaises : Option String := none
  configEnv : ConfigEnv := {}
  testScriptRaises : Option String := none
  execEnv : ExecEnv := {}

/-- Result of one `run_test_for_language` call.  `ranExecute` records whether
the execute phase was entered at all. -/
structure JobOutcome where
  verdict : Verdict
  ranExecute : Bool
  fs : FS

/-- Per-locale driver (`run_test_for_language`): configure first; on configure
failure return the configuration-error verdict without entering the execute
phase; exceptions escaping either phase are downgraded by the outer handler to
an `exception` verdict. -/
def run_test_for_language (fs : FS) (env : JobEnv)
    (language_code tutorial_name : String) : JobOutcome :=
  match env.configScriptRaises with
  | some e =>
    { verdict := { language := language_code, tutorial := tutorial_name,
                   status := "exception", error := some e, execution_time := 0 },
      ranExecute := false, fs := fs }
  | none =>
    let c := _configure_language fs env.configScript env.configEnv
    if c.1 then
      match env.testScriptRaises with
      | some e =>
        { verdict := { language := language_code, tutorial := tutorial_name,
                       status := "exception", error := some e, execution_time := 0 },
          ranExecute := false, fs := c.2 }
      | none =>
        let r := _run_tutorial_test c.2 env.testScript env.execEnv
          language_code tutorial_name
        { verdict := r.verdict, ranExecute := true, fs := r.fs }
    else
      { verdict := { language := language_code, tutorial := tutorial_name,
                     status := "error",
                     error := some "Falha na configuração de linguagem",
                     execution_time := 0 },
        ranExecute := false, fs := c.2 }

/-- Python dict assignment `results[lang] = v`: replaces the value in place
when the key is present, otherwise appends the new binding. -/
def dictInsert (m : List (String × Verdict)) (k : String) (v : Verdict) :
    List (String × Verdict) :=
  if k ∈ m.map Prod.fst then
    m.map (fun p => if p.1 = k then (k, v) else p)
  else
    m ++ [(k, v)]

/-- Loop body of `run_all_tests`: `for lang in language_codes` running one
locale at a time, recording each verdict under its locale key. -/
def run_all_tests_loop (envs : String → JobEnv) (tutorial_name : String)
    (acc : List (String × Verdict) × FS) :
    List String → List (String × Verdict) × FS
  | [] => acc
  | lang :: rest =>
    let out := run_test_for_language acc.2 (envs lang) lang tutorial_name
    run_all_tests_loop envs tutorial_name
      (dictInsert acc.1 lang out.verdict, out.fs) rest

/-- Batch driver (`run_all_tests`): starts from an empty results dict and runs
every requested locale in order. -/
def run_all_tests (fs : FS) (envs : String → JobEnv)
    (language_codes : List String) (tutorial_name : String) :
    List (String × Verdict) × FS :=
  run_all_tests_loop envs tutorial_name ([], fs) language_codes

/-- Summary part of the final report built by `generate_report`. -/
structure Report where
  tutorial : String
  total_tests : Nat
  successful_tests : Nat
  failed_tests : Nat
  success_rate : ℚ
deriving DecidableEq

/-- Aggregation (`generate_report`): counts, complement, and guarded success
rate `successful/total*100` (0 when there are no results). -/
def generate_report (tutorial_name : String)
    (results : List (String × Verdict)) : Report :=
  let total_tests := results.length
  let successful_tests :=
    (results.filter (fun p => decide (p.2.status = "success"))).length
  { tutorial := tutorial_name,
    total_tests := total_tests,
    successful_tests := successful_tests,
    failed_tests := total_tests - successful_tests,
    success_rate :=
      if 0 < total_tests then
        (successful_tests : ℚ) / (total_tests : ℚ) * 100
      else 0 }

/-- Top-level CLI driver (`main`) reduced to its exit-code decision: `fatal`
models an unhandled fault escaping the `try` around the batch (exit 3);
otherwise the batch runs, the report is built, and the success rate selects
the exit code exactly as the chained `if` in the source does. -/
def mainDriver (fs : FS) (envs : String → JobEnv) (languages : List String)
    (tutorial_name : String) (fatal : Option String) : Nat :=
  match fatal with
  | some _ => 3
  | none =>
    let results := (run_all_tests fs envs languages tutorial_name).1
    let report := generate_report tutorial_name results
    if report.success_rate = 100 then 0
    else if 50 ≤ report.success_rate then 1
    else 2

/-- Spec-side reading of claim C1's "persistence-confirmation marker for the
requested locale": a captured line that names the requested locale together
with the persisted-internationalization confirmation text.  Stated from the
spec's words, to be compared with the fixed markers the source scans for. -/
def specLocaleMarker (locale line : String) : Bool :=
  hasSubstr line locale && hasSubstr line "i18n habilitado: True"

/-- Keys of a Python dict filled by repeated assignment: first occurrence
order, one entry per distinct key. -/
def firstOccurrences (L : List String) : List String :=
  L.foldl (fun acc l => if l ∈ acc then acc else acc ++ [l]) []

/-- Status field of a result artifact that parsed, if any. -/
def parsedStatus : Option (Except String ResultData) → Option String
  | some (Except.ok d) => some d.status
  | _ => none

/-! Helper lemmas. -/

lemma not_mem_fsUnlink (fs : FS) (f : String) : f ∉ fsUnlink fs f := by
  simp [fsUnlink]

lemma execute_status_classification (fs : FS) (s : String) (env : ExecEnv)
    (l t : String) :
    (_run_tutorial_test fs s env l t).verdict.status = "error" ∨
    parsedStatus env.resultFile =
      some (_run_tutorial_test fs s env l t).verdict.status := by
  rcases env with ⟨br, tmo, ag, rc, ol, el, rf⟩
  cases br with
  | some e => exact Or.inl rfl
  | none =>
    rcases rf with _ | (msg | d)
    · exact Or.inl rfl
    · exact Or.inl rfl
    · exact Or.inr rfl

/-! Theorems for the claims. -/

/-- Claim C8: the transient script file that `_configure_language` or
`_run_tutorial_test` created is absent from the filesystem when the call
returns, on every code path (normal success, failure result, timeout, raised
exception) — the `finally: os.unlink` runs on each of them. -/
theorem transient_scripts_removed_on_every_path (fs : FS) (script : String)
    (cenv : ConfigEnv) (eenv : ExecEnv) (lang tut : String) :
    script ∉ (_configure_language fs script cenv).2 ∧
    script ∉ (_run_tutorial_test fs script eenv lang tut).fs := by
  constructor
  · rcases cenv with ⟨br, t, rc, ol⟩
    cases br with
    | some e => simp [_configure_language, fsUnlink, List.mem_filter]
    | none =>
      simp only [_configure_language]
      split_ifs <;> simp [fsUnlink, List.mem_filter]
  · rcases eenv with ⟨br, t, ag, rc, ol, el, rf⟩
    cases br with
    | some e => simp [_run_tutorial_test, fsUnlink, List.mem_filter]
    | none =>
      rcases rf with _ | (msg | d) <;>
        simp [_run_tutorial_test, fsUnlink, List.mem_filter]

/-- Claim C1, counterexample: for requested locale `fr-FR`, a non-zero exit
together with a captured line holding the persistence-confirmation marker for
`fr-FR` does not make `_configure_language` return true — the source scans
for the fixed string `pt-BR`, not for the requested locale. -/
theorem configure_marker_is_fixed_not_per_locale_cex :
    (["fr-FR i18n habilitado: True"].any (fun l => specLocaleMarker "fr-FR" l)
        = true) ∧
    (1 : Int) ≠ 0 ∧
    (_configure_language [] "config_script.py"
        { bodyRaises := none, timedOut := false, returncode := 1,
          outputLines := ["fr-FR i18n habilitado: True"] }).1 = false := by
  decide

/-- Claim C1, amended: when the configure subprocess completes without the
supervisor timing out and without an exception, and some captured line holds
both `pt-BR` and `i18n habilitado: True`, or some captured line holds both
`✅` and `Configuração`, then `_configure_language` returns true even when the
exit code is non-zero; the markers are fixed strings, independent of the
requested locale. -/
theorem configure_benign_nonzero_override (fs : FS) (script : String)
    (env : ConfigEnv) (hr : env.bodyRaises = none) (ht : env.timedOut = false)
    (hev : env.outputLines.any
        (fun line => hasSubstr line "pt-BR" && hasSubstr line "i18n habilitado: True")
          = true ∨
      env.outputLines.any
        (fun line => hasSubstr line "✅" && hasSubstr line "Configuração") = true) :
    (_configure_language fs script env).1 = true := by
  unfold _configure_language
  rw [hr]
  by_cases hrc : env.returncode = 0
  · simp [ht, hrc]
  · simp only [ht, Bool.false_eq_true, if_false, hrc, if_neg]
    rcases hev with h | h <;> simp [h]

/-- Claim C1, witness for the amended theorem at a concrete input: exit code 1
with the captured confirmation line makes configure report success. -/
theorem configure_benign_nonzero_override_witness :
    (_configure_language [] "config_script.py"
        { bodyRaises := none, timedOut := false, returncode := 1,
          outputLines := ["✅ Configuração salva com sucesso"] }).1 = true := by
  exact configure_benign_nonzero_override [] "config_script.py" _ rfl rfl
    (Or.inr (by decide))

/-- Execute-phase environment of the C2 failing input: the subprocess is still
alive past the timeout, survives the grace period after `terminate`, and
leaves no result artifact. -/
def timeoutExecEnv : ExecEnv :=
  { bodyRaises := none, timedOut := true, aliveAfterGrace := true,
    returncode := -9, outputLines := [], elapsed := 301, resultFile := none }

/-- Claim C2 (code bug): on a run that outlives the timeout,
`_run_tutorial_test` does send `terminate` and then `kill`, and the recorded
elapsed time is at least the configured timeout, but the returned verdict has
status `error` (from the `No result file found` branch) — the `timeout`
status that `run_all_tests` and `generate_report` are written to display is
never produced. -/
theorem execute_timeout_produces_error_not_timeout_status :
    ((_run_tutorial_test [] "test_script.py" timeoutExecEnv "fr-FR"
        "TestTutorial").actions = [ProcAction.terminate, ProcAction.kill]) ∧
    SLICER_TIMEOUT ≤ (_run_tutorial_test [] "test_script.py" timeoutExecEnv
        "fr-FR" "TestTutorial").verdict.execution_time ∧
    (_run_tutorial_test [] "test_script.py" timeoutExecEnv "fr-FR"
        "TestTutorial").verdict.status = "error" ∧
    (_run_tutorial_test [] "test_script.py" timeoutExecEnv "fr-FR"
        "TestTutorial").verdict.status ≠ "timeout" := by
  decide

/-- Claim C3, counterexample: with exit code 1 and no evidence lines, an
existing result artifact with status `success` still yields a success verdict
— `_run_tutorial_test` never consults the exit code once the artifact parses. -/
theorem execute_success_without_zero_exit_cex :
    ((_run_tutorial_test [] "test_script.py"
        { bodyRaises := none, timedOut := false, aliveAfterGrace := false,
          returncode := 1, outputLines := [], elapsed := 10,
          resultFile := some (Except.ok
            { language := "pt-BR", tutorial := "TestTutorial",
              status := "success", error := none }) }
        "pt-BR" "TestTutorial").verdict.status = "success") ∧
    ((_run_tutorial_test [] "test_script.py"
        { bodyRaises := none, timedOut := false, aliveAfterGrace := false,
          returncode := 1, outputLines := [], elapsed := 10,
          resultFile := some (Except.ok
            { language := "pt-BR", tutorial := "TestTutorial",
              status := "success", error := none }) }
        "pt-BR" "TestTutorial").verdict.return_code = some 1) := by
  exact ⟨rfl, rfl⟩

/-- Claim C3, amended: a verdict's status is `error` or `exception` when it is
synthesized by the driver itself, and otherwise is copied verbatim from the
parsed result artifact; in particular a `success` verdict requires the execute
run's artifact to exist and parse with status `success` — the exit code is not
consulted. -/
theorem verdict_status_classification (fs : FS) (env : JobEnv)
    (lang tut : String) :
    ((run_test_for_language fs env lang tut).verdict.status = "error" ∨
     (run_test_for_language fs env lang tut).verdict.status = "exception" ∨
     parsedStatus env.execEnv.resultFile =
       some (run_test_for_language fs env lang tut).verdict.status) ∧
    ((run_test_for_language fs env lang tut).verdict.status = "success" →
      parsedStatus env.execEnv.resultFile = some "success") := by
  have h1 : (run_test_for_language fs env lang tut).verdict.status = "error" ∨
      (run_test_for_language fs env lang tut).verdict.status = "exception" ∨
      parsedStatus env.execEnv.resultFile =
        some (run_test_for_language fs env lang tut).verdict.status := by
    rcases env with ⟨cs, ts, csr, ce, tsr, ee⟩
    cases csr with
    | some e => exact Or.inr (Or.inl rfl)
    | none =>
      dsimp only [run_test_for_language]
      split_ifs with hc
      · cases tsr with
        | some e => exact Or.inr (Or.inl rfl)
        | none =>
          rcases execute_status_classification
              (_configure_language fs cs ce).2 ts ee lang tut with h | h
          · exact Or.inl h
          · exact Or.inr (Or.inr h)
      · exact Or.inl rfl
  refine ⟨h1, fun hs => ?_⟩
  rcases h1 with h | h | h
  · rw [hs] at h; exact absurd h (by decide)
  · rw [hs] at h; exact absurd h (by decide)
  · rw [hs] at h; exact h

/-- Concrete job environment whose execute artifact parses with status
`success`, used to witness the amended C3 theorem. -/
def successJobEnv : JobEnv :=
  { execEnv := { resultFile := some (Except.ok
      { language := "pt-BR", tutorial := "TestTutorial", status := "success",
        error := none }) } }

/-- Claim C3, witness: at a concrete successful run the status is `success`
and the amended theorem recovers the parsed artifact's success status. -/
theorem verdict_status_classification_witness :
    (run_test_for_language [] successJobEnv "pt-BR" "TestTutorial").verdict.status
        = "success" ∧
    parsedStatus successJobEnv.execEnv.resultFile = some "success" := by
  exact ⟨rfl,
    (verdict_status_classification [] successJobEnv "pt-BR" "TestTutorial").2 rfl⟩

/-- Claim C4: `generate_report` on N verdicts of which S have status
`success` reports total N, successes S, failures N − S, successes plus
failures equal to the total, and success rate S/N×100 (0 when N = 0). -/
theorem generate_report_counts (tut : String)
    (results : List (String × Verdict)) :
    (generate_report tut results).total_tests = results.length ∧
    (generate_report tut results).successful_tests =
      (results.filter (fun p => decide (p.2.status = "success"))).length ∧
    (generate_report tut results).failed_tests =
      results.length -
        (results.filter (fun p => decide (p.2.status = "success"))).length ∧
    (generate_report tut results).successful_tests
        + (generate_report tut results).failed_tests
      = (generate_report tut results).total_tests ∧
    (generate_report tut results).success_rate =
      (if 0 < results.length then
        ((results.filter (fun p => decide (p.2.status = "success"))).length : ℚ)
          / (results.length : ℚ) * 100
      else 0) := by
  refine ⟨rfl, rfl, rfl, ?_, rfl⟩
  exact Nat.add_sub_cancel' (List.length_filter_le _ _)

/-- Claim C9: with an empty locale list the report counts zero tests with
success rate 0, and the driver exits with code 2 even though no locale
failed. -/
theorem empty_locale_list_exits_two (fs : FS) (envs : String → JobEnv)
    (tut : String) :
    (generate_report tut (run_all_tests fs envs [] tut).1).total_tests = 0 ∧
    (generate_report tut (run_all_tests fs envs [] tut).1).success_rate = 0 ∧
    mainDriver fs envs [] tut none = 2 := by
  exact ⟨rfl, rfl, rfl⟩

/-- Claim C10: when the result artifact exists but reading or parsing it
raises, `_run_tutorial_test` does not propagate the fault — it returns an
`error` verdict carrying the fault's message with `execution_time` 0,
whatever the actual elapsed time was. -/
theorem execute_result_parse_fault_verdict (fs : FS)
    (script lang tut msg : String) (env : ExecEnv)
    (hb : env.bodyRaises = none)
    (hf : env.resultFile = some (Except.error msg)) :
    (_run_tutorial_test fs script env lang tut).verdict.status = "error" ∧
    (_run_tutorial_test fs script env lang tut).verdict.error = some msg ∧
    (_run_tutorial_test fs script env lang tut).verdict.execution_time = 0 := by
  unfold _run_tutorial_test
  rw [hb, hf]
  exact ⟨rfl, rfl, rfl⟩

/-- Claim C10, witness: a concrete parse fault at 42 elapsed seconds yields
the error verdict with zero recorded execution time. -/
theorem execute_result_parse_fault_verdict_witness :
    (_run_tutorial_test [] "test_script.py"
        { bodyRaises := none, timedOut := false, aliveAfterGrace := false,
          returncode := 0, outputLines := [], elapsed := 42,
          resultFile := some (Except.error "Expecting value: line 1 column 1") }
        "pt-BR" "TestTutorial").verdict.status = "error" ∧
    (_run_tutorial_test [] "test_script.py"
        { bodyRaises := none, timedOut := false, aliveAfterGrace := false,
          returncode := 0, outputLines := [], elapsed := 42,
          resultFile := some (Except.error "Expecting value: line 1 column 1") }
        "pt-BR" "TestTutorial").verdict.error
      = some "Expecting value: line 1 column 1" ∧
    (_run_tutorial_test [] "test_script.py"
        { bodyRaises := none, timedOut := false, aliveAfterGrace := false,
          returncode := 0, outputLines := [], elapsed := 42,
          resultFile := some (Except.error "Expecting value: line 1 column 1") }
        "pt-BR" "TestTutorial").verdict.execution_time = 0 := by
  exact execute_result_parse_fault_verdict [] "test_script.py" "pt-BR"
    "TestTutorial" "Expecting value: line 1 column 1" _ rfl rfl

/-- Claim C5: the driver's exit code is 0 when the report's success rate is
100, 1 when it is at least 50 but below 100, 2 when it is below 50, and 3 when
an unhandled fault reaches the top-level handler. -/
theorem main_exit_codes (fs : FS) (envs : String → JobEnv)
    (langs : List String) (tut : String) (f : String) :
    ((generate_report tut (run_all_tests fs envs langs tut).1).success_rate
        = 100 → mainDriver fs envs langs tut none = 0) ∧
    (50 ≤ (generate_report tut (run_all_tests fs envs langs tut).1).success_rate →
      (generate_report tut (run_all_tests fs envs langs tut).1).success_rate
          < 100 → mainDriver fs envs langs tut none = 1) ∧
    ((generate_report tut (run_all_tests fs envs langs tut).1).success_rate
        < 50 → mainDriver fs envs langs tut none = 2) ∧
    mainDriver fs envs langs tut (some f) = 3 := by
  refine ⟨?_, ?_, ?_, rfl⟩ <;> dsimp only [mainDriver]
  · intro h
    rw [if_pos h]
  · intro h1 h2
    rw [if_neg (ne_of_lt h2), if_pos h1]
  · intro h
    rw [if_neg (ne_of_lt (h.trans (by norm_num))), if_neg (not_le.mpr h)]

/-- Locale environments for the C5 witness: locale `a` succeeds (its artifact
parses with status `success`), every other locale fails for want of an
artifact. -/
def halfSuccessEnvs : String → JobEnv := fun l =>
  if l = "a" then
    { execEnv := { resultFile := some (Except.ok
        { language := "a", tutorial := "T", status := "success",
          error := none }) } }
  else {}

/-- Claim C5, witness: one of two locales succeeding gives a 50% success rate
and exit code 1, and a concrete top-level fault gives exit code 3. -/
theorem main_exit_codes_witness :
    mainDriver [] halfSuccessEnvs ["a", "b"] "T" none = 1 ∧
    mainDriver [] halfSuccessEnvs ["a", "b"] "T" (some "boom") = 3 := by
  have h50 : (generate_report "T"
      (run_all_tests [] halfSuccessEnvs ["a", "b"] "T").1).success_rate = 50 := by
    have h1 : (generate_report "T"
        (run_all_tests [] halfSuccessEnvs ["a", "b"] "T").1).success_rate
        = ((1 : Nat) : ℚ) / ((2 : Nat) : ℚ) * 100 := rfl
    rw [h1]
    norm_num
  refine ⟨(main_exit_codes [] halfSuccessEnvs ["a", "b"] "T" "boom").2.1
      ?_ ?_, (main_exit_codes [] halfSuccessEnvs ["a", "b"] "T" "boom").2.2.2⟩
  · rw [h50]
  · rw [h50]
    norm_num

/-- Claim C7: `run_test_for_language` runs configure first; when configure
fails it returns the configuration-error verdict without entering the execute
phase; and a fault escaping either phase's script generation is downgraded to
an `exception` verdict instead of propagating. -/
theorem run_locale_short_circuit_and_fault_conversion (fs : FS) (env : JobEnv)
    (lang tut : String) :
    (env.configScriptRaises = none →
      (_configure_language fs env.configScript env.configEnv).1 = false →
      (run_test_for_language fs env lang tut).verdict.status = "error" ∧
      (run_test_for_language fs env lang tut).verdict.error =
        some "Falha na configuração de linguagem" ∧
      (run_test_for_language fs env lang tut).ranExecute = false) ∧
    (∀ e, env.configScriptRaises = some e →
      (run_test_for_language fs env lang tut).verdict.status = "exception" ∧
      (run_test_for_language fs env lang tut).ranExecute = false) ∧
    (∀ e, env.configScriptRaises = none → env.testScriptRaises = some e →
      (run_test_for_language fs env lang tut).verdict.status = "exception" ∨
      (run_test_for_language fs env lang tut).verdict.status = "error") := by
  refine ⟨fun hn hc => ?_, fun e he => ?_, fun e hn ht => ?_⟩
  · unfold run_test_for_language
    rw [hn]
    simp [hc]
  · unfold run_test_for_language
    rw [he]
    exact ⟨rfl, rfl⟩
  · unfold run_test_for_language
    rw [hn]
    by_cases hc : (_configure_language fs env.configScript env.configEnv).1
    · rw [if_pos hc, ht]
      exact Or.inl rfl
    · rw [if_neg hc]
      exact Or.inr rfl

/-- Configure environment that fails (non-zero exit, no confirmation lines),
for the C7 witness. -/
def failingConfigJobEnv : JobEnv :=
  { configEnv :=
      { bodyRaises := none, timedOut := false, returncode := 1,
        outputLines := ["Segmentation fault"] } }

/-- Claim C7, witness: with a failing configure run the verdict is the
configuration error and the execute phase never starts; with a raising
script generator the verdict is an exception. -/
theorem run_locale_short_circuit_witness :
    ((run_test_for_language [] failingConfigJobEnv "fr-FR" "T").verdict.status
        = "error" ∧
      (run_test_for_language [] failingConfigJobEnv "fr-FR" "T").verdict.error =
        some "Falha na configuração de linguagem" ∧
      (run_test_for_language [] failingConfigJobEnv "fr-FR" "T").ranExecute
        = false) ∧
    ((run_test_for_language [] { configScriptRaises := some "disk full" }
        "fr-FR" "T").verdict.status = "exception" ∧
      (run_test_for_language [] { configScriptRaises := some "disk full" }
        "fr-FR" "T").ranExecute = false) := by
  exact ⟨(run_locale_short_circuit_and_fault_conversion [] failingConfigJobEnv
      "fr-FR" "T").1 rfl (by decide),
    (run_locale_short_circuit_and_fault_conversion []
      { configScriptRaises := some "disk full" } "fr-FR" "T").2.1
      "disk full" rfl⟩

lemma map_fst_update (m : List (String × Verdict)) (k : String) (v : Verdict) :
    (m.map (fun p => if p.1 = k then (k, v) else p)).map Prod.fst
      = m.map Prod.fst := by
  induction m with
  | nil => rfl
  | cons p rest ih =>
    simp only [List.map_cons, ih, List.cons.injEq, and_true]
    by_cases h : p.1 = k
    · simp [h]
    · simp [h]

lemma dictInsert_keys (m : List (String × Verdict)) (k : String) (v : Verdict) :
    (dictInsert m k v).map Prod.fst =
      if k ∈ m.map Prod.fst then m.map Prod.fst else m.map Prod.fst ++ [k] := by
  unfold dictInsert
  split_ifs with h
  · exact map_fst_update m k v
  · simp

lemma dictInsert_mem (m : List (String × Verdict)) (k : String) (v : Verdict)
    (p : String × Verdict) (hp : p ∈ dictInsert m k v) :
    p ∈ m ∨ p = (k, v) := by
  unfold dictInsert at hp
  split_ifs at hp with h
  · rcases List.mem_map.mp hp with ⟨q, hq, he⟩
    by_cases hqk : q.1 = k
    · right
      rw [← he, if_pos hqk]
    · left
      rw [← he, if_neg hqk]
      exact hq
  · rcases List.mem_append.mp hp with h1 | h1
    · exact Or.inl h1
    · right
      simpa using h1

lemma configure_fst_indep (fs fs2 : FS) (s : String) (env : ConfigEnv) :
    (_configure_language fs s env).1 = (_configure_language fs2 s env).1 := by
  rcases env with ⟨br, t, rc, ol⟩
  cases br with
  | some e => rfl
  | none =>
    simp only [_configure_language]
    split_ifs <;> rfl

lemma execute_verdict_indep (fs fs2 : FS) (s : String) (env : ExecEnv)
    (l t : String) :
    (_run_tutorial_test fs s env l t).verdict
      = (_run_tutorial_test fs2 s env l t).verdict := by
  rcases env with ⟨br, tmo, ag, rc, ol, el, rf⟩
  cases br with
  | some e => rfl
  | none => rcases rf with _ | (msg | d) <;> rfl

lemma job_verdict_indep (fs fs2 : FS) (env : JobEnv) (l t : String) :
    (run_test_for_language fs env l t).verdict
      = (run_test_for_language fs2 env l t).verdict := by
  rcases env with ⟨cs, ts, csr, ce, tsr, ee⟩
  cases csr with
  | some e => rfl
  | none =>
    dsimp only [run_test_for_language]
    rw [configure_fst_indep fs fs2 cs ce]
    split_ifs with h
    · cases tsr with
      | some e => rfl
      | none => exact execute_verdict_indep _ _ ts ee l t
    · rfl

lemma run_all_tests_loop_keys (envs : String → JobEnv) (tut : String) :
    ∀ (L : List String) (m : List (String × Verdict)) (fs : FS),
      ((run_all_tests_loop envs tut (m, fs) L).1).map Prod.fst =
        L.foldl (fun acc l => if l ∈ acc then acc else acc ++ [l])
          (m.map Prod.fst) := by
  intro L
  induction L with
  | nil =>
    intro m fs
    rfl
  | cons x rest ih =>
    intro m fs
    simp only [run_all_tests_loop, List.foldl_cons]
    rw [ih, dictInsert_keys]

lemma run_all_tests_loop_values (envs : String → JobEnv) (tut : String) :
    ∀ (L : List String) (m : List (String × Verdict)) (fs : FS),
      (∀ p ∈ m, p.2 = (run_test_for_language [] (envs p.1) p.1 tut).verdict) →
      ∀ p ∈ (run_all_tests_loop envs tut (m, fs) L).1,
        p.2 = (run_test_for_language [] (envs p.1) p.1 tut).verdict := by
  intro L
  induction L with
  | nil =>
    intro m fs hm
    exact hm
  | cons x rest ih =>
    intro m fs hm
    simp only [run_all_tests_loop]
    apply ih
    intro p hp
    rcases dictInsert_mem m x _ p hp with h | h
    · exact hm p h
    · rw [h]
      exact job_verdict_indep fs [] (envs x) x tut

lemma foldl_firstOcc_mem (l : String) :
    ∀ (L acc : List String),
      l ∈ L.foldl (fun a x => if x ∈ a then a else a ++ [x]) acc ↔
        l ∈ acc ∨ l ∈ L := by
  intro L
  induction L with
  | nil =>
    intro acc
    simp
  | cons x rest ih =>
    intro acc
    simp only [List.foldl_cons, List.mem_cons]
    rw [ih]
    by_cases h : x ∈ acc
    · simp only [if_pos h]
      constructor
      · rintro (ha | hr)
        · exact Or.inl ha
        · exact Or.inr (Or.inr hr)
      · rintro (ha | rfl | hr)
        · exact Or.inl ha
        · exact Or.inl h
        · exact Or.inr hr
    · simp only [if_neg h, List.mem_append, List.mem_singleton]
      tauto

lemma foldl_firstOcc_nodup :
    ∀ (L acc : List String), acc.Nodup →
      (L.foldl (fun a x => if x ∈ a then a else a ++ [x]) acc).Nodup := by
  intro L
  induction L with
  | nil =>
    intro acc h
    exact h
  | cons x rest ih =>
    intro acc h
    simp only [List.foldl_cons]
    apply ih
    by_cases hx : x ∈ acc
    · simpa [hx] using h
    · simp only [if_neg hx]
      exact List.Nodup.append h (List.nodup_singleton x)
        (List.disjoint_singleton.mpr hx)

/-- Claim C6, counterexample: a locale list with a repeated code yields one
mapping entry, not one per element — the results dict collapses duplicate
keys. -/
theorem run_all_tests_duplicate_locales_collapse_cex :
    ((run_all_tests [] (fun _ => {}) ["pt-BR", "pt-BR"] "TestTutorial").1).length
        = 1 ∧
    (["pt-BR", "pt-BR"] : List String).length = 2 := by
  exact ⟨rfl, rfl⟩

/-- Claim C6, amended: `run_all_tests` returns exactly one verdict per
distinct element of the locale list, with keys in first-occurrence order (so
input order is preserved, and for a list without duplicates there is exactly
one entry per element); a repeated locale code is run again but its entry is
overwritten in place. -/
theorem run_all_tests_one_verdict_per_distinct_locale (fs : FS)
    (envs : String → JobEnv) (L : List String) (tut : String) :
    ((run_all_tests fs envs L tut).1).map Prod.fst = firstOccurrences L ∧
    (((run_all_tests fs envs L tut).1).map Prod.fst).Nodup ∧
    (∀ l : String, l ∈ ((run_all_tests fs envs L tut).1).map Prod.fst ↔ l ∈ L) ∧
    (∀ p : String × Verdict, p ∈ (run_all_tests fs envs L tut).1 →
      p.2 = (run_test_for_language [] (envs p.1) p.1 tut).verdict) := by
  have hkeys : ((run_all_tests fs envs L tut).1).map Prod.fst
      = firstOccurrences L := by
    simpa [firstOccurrences] using run_all_tests_loop_keys envs tut L [] fs
  refine ⟨hkeys, ?_, ?_, ?_⟩
  · rw [hkeys]
    exact foldl_firstOcc_nodup L [] List.nodup_nil
  · intro l
    rw [hkeys]
    exact (foldl_firstOcc_mem l L []).trans (by simp)
  · exact run_all_tests_loop_values envs tut L [] fs (by simp)

/-- Verdict that the all-defaults job environment produces, used in the C6
witness. -/
def defaultJobVerdict : Verdict :=
  (run_test_for_language [] ({} : JobEnv) "pt-BR" "TestTutorial").verdict

/-- Claim C6, witness: for a concrete single-locale batch the keys are the
first occurrences and the recorded entry carries that locale's verdict. -/
theorem run_all_tests_one_verdict_witness :
    ((run_all_tests [] (fun _ => ({} : JobEnv)) ["pt-BR"] "TestTutorial").1).map
        Prod.fst = firstOccurrences ["pt-BR"] ∧
    ("pt-BR", defaultJobVerdict).2 =
      (run_test_for_language [] ((fun _ => ({} : JobEnv)) "pt-BR") "pt-BR"
        "TestTutorial").verdict := by
  refine ⟨(run_all_tests_one_verdict_per_distinct_locale [] (fun _ => {})
      ["pt-BR"] "TestTutorial").1,
    (run_all_tests_one_verdict_per_distinct_locale [] (fun _ => {})
      ["pt-BR"] "TestTutorial").2.2.2 ("pt-BR", defaultJobVerdict) ?_⟩
  decide

end TutorialCI
